import Mathlib

/-!
Verification development for `generate_pages.py`, a static-site generator
that converts a Markdown log (one section per numbered "day") plus per-day
code directories into an index page and one HTML page per day.

Strings are modelled as `List Char`.  Each definition below embeds one
function (or one expression) of the source file; the big HTML template
text is transcribed verbatim into named constants.
-/

/-- ASCII fragment of Python's whitespace class: the characters matched by
the regex class and removed by Python string stripping
(space, tab, newline, carriage return, vertical tab, form feed). -/
def isPySpace (c : Char) : Bool :=
  c == ' ' || c == '\t' || c == '\n' || c == '\r' || c == '\x0b' || c == '\x0c'

/-- Python string stripping: remove leading and trailing whitespace
(used at line 34 of the source, `match.group(3).strip()`, and at
line 291, `line.strip()`). -/
def pyStrip (s : List Char) : List Char :=
  ((s.dropWhile isPySpace).reverse.dropWhile isPySpace).reverse

/-- Python single-character string split, e.g. `desc.split('\n')`
(line 289 of the source). -/
def splitOnChar (sep : Char) : List Char → List (List Char)
  | [] => [[]]
  | c :: t =>
    if c == sep then [] :: splitOnChar sep t
    else
      match splitOnChar sep t with
      | [] => [[c]]
      | l :: ls => (c :: l) :: ls

/-- Python `str.replace(old, new)` for a single-character `old`:
every occurrence of the character is replaced, one pass, left to right. -/
def replaceChar (old : Char) (rep : List Char) (s : List Char) : List Char :=
  s.flatMap (fun c => if c = old then rep else [c])

/-- Line 85 of the source:
`content.replace('&', '&amp;').replace('<', '&lt;').replace('>', '&gt;')`.
The ampersand substitution runs first, then less-than, then greater-than. -/
def escapeHtml (content : List Char) : List Char :=
  replaceChar '>' "&gt;".data
    (replaceChar '<' "&lt;".data
      (replaceChar '&' "&amp;".data content))

/-- Per-character escaping table; `escapeHtml` is proved equal to a single
simultaneous pass with this table, which is the sense in which the
amp-first substitution order avoids double escaping. -/
def escChar (c : Char) : List Char :=
  if c = '&' then "&amp;".data
  else if c = '<' then "&lt;".data
  else if c = '>' then "&gt;".data
  else [c]

/-- Checker: every ampersand in the list starts one of the three entities
`&amp;` `&lt;` `&gt;` (so no ampersand occurs outside entity form). -/
def ampOk : List Char → Bool
  | [] => true
  | c :: t =>
    (if c = '&' then
      ("amp;".data.isPrefixOf t || "lt;".data.isPrefixOf t || "gt;".data.isPrefixOf t)
     else true) && ampOk t

/-- Decoder for the three entities produced by `escapeHtml`: one pass,
left to right, turning `&amp;` `&lt;` `&gt;` back into characters. -/
def htmlDecode : List Char → List Char
  | [] => []
  | c :: t =>
    if c = '&' then
      if "amp;".data.isPrefixOf t then '&' :: htmlDecode (t.drop 4)
      else if "lt;".data.isPrefixOf t then '<' :: htmlDecode (t.drop 3)
      else if "gt;".data.isPrefixOf t then '>' :: htmlDecode (t.drop 3)
      else c :: htmlDecode t
    else c :: htmlDecode t
termination_by s => s.length
decreasing_by all_goals simp [List.length_drop] <;> omega

/-- Last non-empty, non-dot component of a POSIX path
(pathlib `PurePath.name` for the paths handled here). -/
def pathName (s : List Char) : List Char :=
  ((splitOnChar '/' s).filter (fun p => !(p.isEmpty || p == ['.']))).getLastD []

/-- pathlib `PurePath.suffix`: the extension of the final component,
i.e. `name[i:]` for the last dot position `i` when `0 < i < len(name) - 1`,
otherwise empty. -/
def pathSuffix (s : List Char) : List Char :=
  let name := pathName s
  let j := name.reverse.findIdx (fun c => c == '.')
  if 0 < j ∧ j < name.length - 1 then name.drop (name.length - 1 - j) else []

/-- Lines 63-75 of the source: fixed extension table, generic fallback. -/
def get_language (filename : List Char) : List Char :=
  let ext := pathSuffix filename
  if ext = ".cu".data then "cuda".data
  else if ext = ".cpp".data then "cpp".data
  else if ext = ".c".data then "c".data
  else if ext = ".h".data then "c".data
  else if ext = ".cuh".data then "cuda".data
  else if ext = ".py".data then "python".data
  else if ext = ".md".data then "markdown".data
  else "clike".data

/-- Decimal digit string to number, as Python `int(...)` on `\d+`. -/
def digitsToNat (ds : List Char) : Nat :=
  ds.foldl (fun a c => 10 * a + (c.toNat - '0'.toNat)) 0

/-- The lookahead body `#{1,2}\s+Day\s+\d+` of the extraction pattern
(line 28 of the source): one or two hashes, whitespace, `Day`,
whitespace, at least one digit. -/
def isBoundaryHeader (s : List Char) : Bool :=
  let hs := s.takeWhile (fun c => c == '#')
  let r0 := s.dropWhile (fun c => c == '#')
  (hs.length == 1 || hs.length == 2)
  && !(r0.takeWhile isPySpace).isEmpty
  && "Day".data.isPrefixOf (r0.dropWhile isPySpace)
  && !(((r0.dropWhile isPySpace).drop 3).takeWhile isPySpace).isEmpty
  && !((((r0.dropWhile isPySpace).drop 3).dropWhile isPySpace).takeWhile Char.isDigit).isEmpty

/-- The lookahead `(?=(?:\n#{1,2}\s+Day\s+\d+|\Z))` that ends the lazy
description group: end of document, or a newline followed by the next
day header. -/
def isStop (s : List Char) : Bool :=
  match s with
  | [] => true
  | c :: t => c == '\n' && isBoundaryHeader t

/-- The lazy group `(.*?)` with the stop lookahead: the shortest prefix
whose remainder satisfies `isStop`, paired with that remainder. -/
def takeDesc : List Char → List Char × List Char
  | [] => ([], [])
  | c :: t =>
    if isStop (c :: t) then ([], c :: t)
    else
      let p := takeDesc t
      (c :: p.1, p.2)

/-- The separator `(?:\s*:\s*|\s*\n)` after the day number.  The first
alternative consumes whitespace, a colon, then trailing whitespace; it
applies exactly when the first non-whitespace character is a colon
(backtracking cannot place the colon elsewhere).  Otherwise the second
alternative consumes the whitespace run through its last newline, and
fails when the run has no newline. -/
def matchSep (r : List Char) : Option (List Char) :=
  let w := r.takeWhile isPySpace
  let r' := r.dropWhile isPySpace
  match r' with
  | c :: rest =>
    if c = ':' then some (rest.dropWhile isPySpace)
    else if w.contains '\n' then
      some ((w.reverse.takeWhile (fun c => !(c == '\n'))).reverse ++ r')
    else none
  | [] =>
    if w.contains '\n' then
      some ((w.reverse.takeWhile (fun c => !(c == '\n'))).reverse ++ r')
    else none

/-- The header part `(#{1,2})\s+Day\s+(\d+)(?:\s*:\s*|\s*\n)` of the
extraction pattern, matched at a line start: returns the day number and
the remainder where the description group begins.  Three or more hashes
fail because the hash group (at most two) must be followed by
whitespace. -/
def matchHeader (s : List Char) : Option (Nat × List Char) :=
  let hs := s.takeWhile (fun c => c == '#')
  let r0 := s.dropWhile (fun c => c == '#')
  if hs.length = 1 ∨ hs.length = 2 then
    if (r0.takeWhile isPySpace).isEmpty then none
    else
      let r1 := r0.dropWhile isPySpace
      if "Day".data.isPrefixOf r1 then
        let r2 := r1.drop 3
        if (r2.takeWhile isPySpace).isEmpty then none
        else
          let r3 := r2.dropWhile isPySpace
          let ds := r3.takeWhile Char.isDigit
          if ds.isEmpty then none
          else
            match matchSep (r3.dropWhile Char.isDigit) with
            | some r5 => some (digitsToNat ds, r5)
            | none => none
      else none
  else none

lemma length_dropWhile_le (p : Char → Bool) (l : List Char) :
    (l.dropWhile p).length ≤ l.length := by
  induction l with
  | nil => simp
  | cons c t ih =>
    by_cases h : p c
    · simp [List.dropWhile, h]; omega
    · simp [List.dropWhile, h]

lemma takeWhile_reverse_le (p : Char → Bool) (l : List Char) :
    (l.reverse.takeWhile p).length ≤ l.length := by
  calc (l.reverse.takeWhile p).length ≤ l.reverse.length :=
        (List.takeWhile_sublist p).length_le
    _ = l.length := List.length_reverse l

lemma matchSep_length (r r' : List Char) (h : matchSep r = some r') :
    r'.length ≤ r.length := by
  have hlen : (r.takeWhile isPySpace).length + (r.dropWhile isPySpace).length = r.length := by
    rw [← List.length_append, List.takeWhile_append_dropWhile isPySpace r]
  have htw := takeWhile_reverse_le (fun c => !(c == '\n')) (r.takeWhile isPySpace)
  cases hr : r.dropWhile isPySpace with
  | nil =>
    rw [hr] at hlen
    simp only [matchSep, hr] at h
    split at h
    · injection h with h
      subst h
      simp only [List.length_append, List.length_reverse, List.length_nil]
      omega
    · exact absurd h (by simp)
  | cons c rest =>
    rw [hr] at hlen
    simp only [matchSep, hr] at h
    split at h
    · injection h with h
      subst h
      have := length_dropWhile_le isPySpace rest
      simp only [List.length_cons] at hlen
      omega
    · split at h
      · injection h with h
        subst h
        simp only [List.length_append, List.length_reverse, List.length_cons] at *
        omega
      · exact absurd h (by simp)

lemma matchHeader_length (s : List Char) (n : Nat) (rest : List Char)
    (h : matchHeader s = some (n, rest)) : rest.length < s.length := by
  simp only [matchHeader] at h
  split at h
  · rename_i hhs
    split at h
    · exact absurd h (by simp)
    · rename_i hw1
      split at h
      · split at h
        · exact absurd h (by simp)
        · rename_i hw2
          split at h
          · exact absurd h (by simp)
          · rename_i hds
            revert h
            split
            · rename_i r5 heq
              intro h
              injection h with h
              have h2 : rest = r5 := by
                have := congrArg Prod.snd h.symm
                simpa using this
              subst h2
              -- chain of length bounds back to s
              have e0 : (s.takeWhile (fun c => c == '#')).length
                  + (s.dropWhile (fun c => c == '#')).length = s.length := by
                rw [← List.length_append, List.takeWhile_append_dropWhile]
              have b1 := matchSep_length _ _ heq
              have b2 := length_dropWhile_le Char.isDigit
                ((((s.dropWhile (fun c => c == '#')).dropWhile isPySpace).drop 3).dropWhile isPySpace)
              have b3 := length_dropWhile_le isPySpace
                (((s.dropWhile (fun c => c == '#')).dropWhile isPySpace).drop 3)
              have b4 : (((s.dropWhile (fun c => c == '#')).dropWhile isPySpace).drop 3).length
                  ≤ ((s.dropWhile (fun c => c == '#')).dropWhile isPySpace).length := by
                simp [List.length_drop]
              have b5 := length_dropWhile_le isPySpace (s.dropWhile (fun c => c == '#'))
              have b6 : 1 ≤ (s.takeWhile (fun c => c == '#')).length := by
                rcases hhs with h1 | h2
                · omega
                · omega
              omega
            · intro h
              exact absurd h (by simp)
      · exact absurd h (by simp)
  · exact absurd h (by simp)

lemma takeDesc_length (s : List Char) : (takeDesc s).2.length ≤ s.length := by
  induction s with
  | nil => simp [takeDesc]
  | cons c t ih =>
    by_cases h : isStop (c :: t)
    · simp [takeDesc, h]
    · simp [takeDesc, h]
      omega

/-- `re.finditer` over the document with the pattern of line 28: scan left
to right; at each line start try the header; on a match take the lazy
description and resume at the match end (which is either the end of the
document or the newline before the next header, where no header can
start, so the line-start flag passed there is irrelevant); otherwise
advance one character, reaching a line start exactly after a newline.
Emits `(day number, stripped description)` in match order
(lines 30-35 of the source). -/
def scanDoc : List Char → Bool → List (Nat × List Char)
  | [], _ => []
  | c :: t, atStart =>
    if atStart then
      match h : matchHeader (c :: t) with
      | some nr =>
        let p := takeDesc nr.2
        (nr.1, pyStrip p.1) :: scanDoc p.2 false
      | none => scanDoc t (c == '\n')
    else scanDoc t (c == '\n')
termination_by s _ => s.length
decreasing_by
  · have h1 := matchHeader_length _ _ _ h
    have h2 := takeDesc_length nr.2
    simp at h1 ⊢
    omega
  · simp
  · simp

/-- Python dict built by repeated assignment (line 35), read back by key:
the last inserted value for the key wins. -/
def dictGet (l : List (Nat × List Char)) (k : Nat) : Option (List Char) :=
  l.foldl (fun acc p => if p.1 = k then some p.2 else acc) none

/-- Lines 13-37 of the source, on the document text: run the pattern over
the whole document and build the day-number-to-description mapping. -/
def parse_readme (content : List Char) : Nat → Option (List Char) :=
  dictGet (scanDoc content true)

/-- Lines 290-294 of the source: first line that strips to something
non-empty not starting with a hash, cut to 150 characters with an
ellipsis appended when longer. -/
def firstQual : List (List Char) → List Char
  | [] => []
  | l :: ls =>
    let s := pyStrip l
    if s ≠ [] ∧ s.head? ≠ some '#' then
      s.take 150 ++ (if 150 < s.length then "...".data else [])
    else firstQual ls

/-- Lines 285-297 of the source: preview text of a day card. -/
def preview (desc : List Char) : List Char :=
  let p := if desc = [] then [] else firstQual (splitOnChar '\n' desc)
  if p = [] then "Click to view details".data else p
/-- Template text of generate_pages.py, transcribed verbatim. -/
def dayTpl1 : List Char :=
  "<!DOCTYPE html>
<html lang=\"en\">
<head>
    <meta charset=\"UTF-8\">
    <meta name=\"viewport\" content=\"width=device-width, initial-scale=1.0\">
    <title>Day ".data

/-- Template text of generate_pages.py, transcribed verbatim. -/
def dayTpl2 : List Char :=
  " - GPU Kernels Learning Journey</title>
    <link rel=\"stylesheet\" href=\"https://cdnjs.cloudflare.com/ajax/libs/prism/1.29.0/themes/prism-tomorrow.min.css\">
    <style>
        * \x7b
            margin: 0;
            padding: 0;
            box-sizing: border-box;
        \x7d
        
        body \x7b
            font-family: -apple-system, BlinkMacSystemFont, \x27Segoe UI\x27, Roboto, Oxygen, Ubuntu, Cantarell, sans-serif;
            line-height: 1.6;
            color: #333;
            background: #f5f5f5;
        \x7d
        
        .header \x7b
            background: linear-gradient(135deg, #667eea 0%, #764ba2 100%);
            color: white;
            padding: 2rem 1rem;
            text-align: center;
            box-shadow: 0 2px 10px rgba(0,0,0,0.1);
        \x7d
        
        .header h1 \x7b
            font-size: 2.5rem;
            margin-bottom: 0.5rem;
        \x7d
        
        .header .subtitle \x7b
            font-size: 1.1rem;
            opacity: 0.9;
        \x7d
        
        .nav \x7b
            background: white;
            padding: 1rem;
            box-shadow: 0 2px 5px rgba(0,0,0,0.05);
            position: sticky;
            top: 0;
            z-index: 100;
        \x7d
        
        .nav-content \x7b
            max-width: 1200px;
            margin: 0 auto;
            display: flex;
            justify-content: space-between;
            align-items: center;
            flex-wrap: wrap;
            gap: 1rem;
        \x7d
        
        .nav a \x7b
            color: #667eea;
            text-decoration: none;
            padding: 0.5rem 1rem;
            border-radius: 5px;
            transition: all 0.3s;
        \x7d
        
        .nav a:hover \x7b
            background: #667eea;
            color: white;
        \x7d
        
        .container \x7b
            max-width: 1200px;
            margin: 2rem auto;
            padding: 0 1rem;
        \x7d
        
        .description \x7b
            background: white;
            padding: 2rem;
            border-radius: 10px;
            box-shadow: 0 2px 10px rgba(0,0,0,0.05);
            margin-bottom: 2rem;
        \x7d
        
        .description h2 \x7b
            color: #667eea;
            margin-bottom: 1rem;
            border-bottom: 2px solid #667eea;
            padding-bottom: 0.5rem;
        \x7d
        
        .description pre \x7b
            background: #f5f5f5;
            padding: 1rem;
            border-radius: 5px;
            overflow-x: auto;
        \x7d
        
        .file-section \x7b
            background: white;
            margin-bottom: 2rem;
            border-radius: 10px;
            overflow: hidden;
            box-shadow: 0 2px 10px rgba(0,0,0,0.05);
        \x7d
        
        .file-section h3 \x7b
            background: #667eea;
            color: white;
            padding: 1rem;
            margin: 0;
        \x7d
        
        .file-section pre \x7b
            margin: 0;
            border-radius: 0;
        \x7d
        
        .file-section code \x7b
            display: block;
            padding: 1.5rem;
            max-height: 600px;
            overflow: auto;
        \x7d
        
        .no-files \x7b
            text-align: center;
            padding: 3rem;
            color: #999;
            font-style: italic;
        \x7d
        
        @media (max-width: 768px) \x7b
            .header h1 \x7b
                font-size: 1.8rem;
            \x7d
            
            .nav-content \x7b
                flex-direction: column;
                text-align: center;
            \x7d
        \x7d
    </style>
</head>
<body>
    <div class=\"header\">
        <h1>Day ".data

/-- Template text of generate_pages.py, transcribed verbatim. -/
def dayTpl3 : List Char :=
  "</h1>
        <div class=\"subtitle\">GPU Kernels Learning Journey</div>
    </div>
    
    <nav class=\"nav\">
        <div class=\"nav-content\">
            <a href=\"index.html\">← Back to Index</a>
            <div>
                ".data

/-- Template text of generate_pages.py, transcribed verbatim. -/
def dayTplMid : List Char :=
  "
                ".data

/-- Template text of generate_pages.py, transcribed verbatim. -/
def dayTpl4 : List Char :=
  "
            </div>
        </div>
    </nav>
    
    <div class=\"container\">
        <div class=\"description\">
            <h2>Description</h2>
            <div class=\"desc-content\">
".data

/-- Template text of generate_pages.py, transcribed verbatim. -/
def dayTpl5 : List Char :=
  "
            </div>
        </div>
        
        <h2 style=\"margin-bottom: 1rem; color: #667eea;\">Code Files</h2>
".data

/-- Template text of generate_pages.py, transcribed verbatim. -/
def dayTpl6 : List Char :=
  "
    </div>
    
    <script src=\"https://cdnjs.cloudflare.com/ajax/libs/prism/1.29.0/prism.min.js\"></script>
    <script src=\"https://cdnjs.cloudflare.com/ajax/libs/prism/1.29.0/components/prism-c.min.js\"></script>
    <script src=\"https://cdnjs.cloudflare.com/ajax/libs/prism/1.29.0/components/prism-cpp.min.js\"></script>
    <script src=\"https://cdnjs.cloudflare.com/ajax/libs/prism/1.29.0/components/prism-python.min.js\"></script>
    <script src=\"https://cdnjs.cloudflare.com/ajax/libs/prism/1.29.0/components/prism-markdown.min.js\"></script>
</body>
</html>".data

/-- Template text of generate_pages.py, transcribed verbatim. -/
def idxTpl1 : List Char :=
  "<!DOCTYPE html>
<html lang=\"en\">
<head>
    <meta charset=\"UTF-8\">
    <meta name=\"viewport\" content=\"width=device-width, initial-scale=1.0\">
    <title>GPU Kernels - 100 Days Learning Journey</title>
    <style>
        * \x7b
            margin: 0;
            padding: 0;
            box-sizing: border-box;
        \x7d
        
        body \x7b
            font-family: -apple-system, BlinkMacSystemFont, \x27Segoe UI\x27, Roboto, Oxygen, Ubuntu, Cantarell, sans-serif;
            line-height: 1.6;
            color: #333;
            background: #f5f5f5;
        \x7d
        
        .hero \x7b
            background: linear-gradient(135deg, #667eea 0%, #764ba2 100%);
            color: white;
            padding: 4rem 1rem;
            text-align: center;
        \x7d
        
        .hero h1 \x7b
            font-size: 3rem;
            margin-bottom: 1rem;
            font-weight: 700;
        \x7d
        
        .hero p \x7b
            font-size: 1.3rem;
            opacity: 0.95;
            max-width: 800px;
            margin: 0 auto 2rem;
        \x7d
        
        .hero .links \x7b
            display: flex;
            gap: 1rem;
            justify-content: center;
            flex-wrap: wrap;
        \x7d
        
        .hero .links a \x7b
            color: white;
            text-decoration: none;
            padding: 0.8rem 1.5rem;
            border: 2px solid white;
            border-radius: 5px;
            transition: all 0.3s;
            font-weight: 500;
        \x7d
        
        .hero .links a:hover \x7b
            background: white;
            color: #667eea;
        \x7d
        
        .container \x7b
            max-width: 1400px;
            margin: 0 auto;
            padding: 3rem 1rem;
        \x7d
        
        .section-title \x7b
            text-align: center;
            font-size: 2.5rem;
            color: #333;
            margin-bottom: 3rem;
            font-weight: 700;
        \x7d
        
        .day-grid \x7b
            display: grid;
            grid-template-columns: repeat(auto-fill, minmax(300px, 1fr));
            gap: 2rem;
        \x7d
        
        .day-card \x7b
            background: white;
            border-radius: 10px;
            padding: 1.5rem;
            box-shadow: 0 2px 10px rgba(0,0,0,0.05);
            transition: all 0.3s;
            display: flex;
            flex-direction: column;
        \x7d
        
        .day-card:hover \x7b
            transform: translateY(-5px);
            box-shadow: 0 5px 20px rgba(102, 126, 234, 0.2);
        \x7d
        
        .day-number \x7b
            font-size: 1.8rem;
            font-weight: 700;
            color: #667eea;
            margin-bottom: 0.5rem;
        \x7d
        
        .day-preview \x7b
            color: #666;
            flex-grow: 1;
            margin-bottom: 1rem;
            font-size: 0.95rem;
            line-height: 1.5;
        \x7d
        
        .day-link \x7b
            color: #667eea;
            text-decoration: none;
            font-weight: 600;
            transition: all 0.3s;
            display: inline-block;
        \x7d
        
        .day-link:hover \x7b
            color: #764ba2;
            transform: translateX(5px);
        \x7d
        
        .footer \x7b
            background: #333;
            color: white;
            text-align: center;
            padding: 2rem 1rem;
            margin-top: 4rem;
        \x7d
        
        .footer a \x7b
            color: #667eea;
            text-decoration: none;
        \x7d
        
        .footer a:hover \x7b
            text-decoration: underline;
        \x7d
        
        @media (max-width: 768px) \x7b
            .hero h1 \x7b
                font-size: 2rem;
            \x7d
            
            .hero p \x7b
                font-size: 1.1rem;
            \x7d
            
            .section-title \x7b
                font-size: 2rem;
            \x7d
            
            .day-grid \x7b
                grid-template-columns: 1fr;
            \x7d
        \x7d
    </style>
</head>
<body>
    <div class=\"hero\">
        <h1>🚀 GPU Kernels Learning Journey</h1>
        <p>A 100-day journey of learning GPU programming and parallel computing with CUDA, HIP, and more</p>
        <div class=\"links\">
            <a href=\"https://github.com/douyixuan/gpu-kernels\" target=\"_blank\">GitHub Repository</a>
            <a href=\"https://hamdi.bearblog.dev/\" target=\"_blank\">Blog</a>
        </div>
    </div>
    
    <div class=\"container\">
        <h2 class=\"section-title\">100 Days of GPU Programming</h2>
        <div class=\"day-grid\">
".data

/-- Template text of generate_pages.py, transcribed verbatim. -/
def idxTpl2 : List Char :=
  "
        </div>
    </div>
    
    <div class=\"footer\">
        <p>Created as part of the 100 Days GPU Programming Challenge</p>
        <p>Mentor: <a href=\"https://github.com/hkproj/\" target=\"_blank\">hkproj</a> | 
           Challenge Partner: <a href=\"https://github.com/1y33/100Days\" target=\"_blank\">1y33</a></p>
    </div>
</body>
</html>".data
/-- Card loop body, lines 299-304 of the source: one index card per day. -/
def dayCard (day_descriptions : Nat → Option (List Char)) (day_num : Nat) : List Char :=
  "\n        <div class=\"day-card\">\n            <div class=\"day-number\">".data
  ++ ("Day ".data ++ (toString day_num).data ++ "</div>".data)
  ++ "\n            <div class=\"day-preview\">".data
  ++ preview ((day_descriptions day_num).getD [])
  ++ "</div>\n            <a href=\"".data
  ++ ("day-".data ++ (toString day_num).data ++ ".html".data)
  ++ "\" class=\"day-link\">View Details →</a>\n        </div>".data

/-- Lines 279-492 of the source: the index page, with one card for every
day number from 1 to 100 in that order. -/
def generate_index_page (day_descriptions : Nat → Option (List Char)) : List Char :=
  idxTpl1 ++ ((List.range' 1 100).map (dayCard day_descriptions)).flatten ++ idxTpl2

/-- Line 260 of the source: the description is inserted verbatim, or a
placeholder paragraph when it is empty. -/
def descContent (description : List Char) : List Char :=
  if description = [] then "<p>No description available for this day.</p>".data
  else description

/-- Lines 86-91 of the source: one titled block per code file; the raw
relative path sits in the heading, the escaped content in the code tag. -/
def fileSection (f : List Char × List Char) : List Char :=
  "\n    <div class=\"file-section\">\n        ".data
  ++ ("<h3>".data ++ f.1 ++ "</h3>".data)
  ++ "\n        <pre><code class=\"language-".data
  ++ get_language f.1
  ++ "\">".data
  ++ escapeHtml f.2
  ++ "</code></pre>\n    </div>\n".data

/-- Lines 81-93 of the source: concatenated file sections, or the fixed
placeholder paragraph when the file list is empty. -/
def files_html : List (List Char × List Char) → List Char
  | [] => "<p class=\"no-files\">No code files found for this day.</p>".data
  | f :: fs => ((f :: fs).map fileSection).flatten

/-- Line 250 of the source: previous-day anchor, present only above day 1. -/
def prevLink (day_num : Int) : List Char :=
  if 1 < day_num then
    "<a href=\"".data ++ ("day-".data ++ (toString (day_num - 1)).data ++ ".html".data)
      ++ "\">← Day ".data ++ (toString (day_num - 1)).data ++ "</a>".data
  else []

/-- Line 251 of the source: next-day anchor, present only below day 100. -/
def nextLink (day_num : Int) : List Char :=
  if day_num < 100 then
    "<a href=\"".data ++ ("day-".data ++ (toString (day_num + 1)).data ++ ".html".data)
      ++ "\">Day ".data ++ (toString (day_num + 1)).data ++ " →</a>".data
  else []

/-- The two conditional anchors with the template text between them. -/
def navLinks (day_num : Int) : List Char :=
  prevLink day_num ++ dayTplMid ++ nextLink day_num

/-- Lines 78-276 of the source: a complete day page. -/
def generate_day_page (day_num : Int) (description : List Char)
    (files : List (List Char × List Char)) : List Char :=
  dayTpl1 ++ (toString day_num).data ++ dayTpl2 ++ (toString day_num).data ++ dayTpl3
  ++ navLinks day_num ++ dayTpl4 ++ descContent description ++ dayTpl5
  ++ files_html files ++ dayTpl6

/-- The loop condition of lines 292-294: the stripped line is non-empty
and does not start with a hash. -/
def qualB (l : List Char) : Bool :=
  !l.isEmpty && !(l.head? == some '#')

lemma replaceChar_append (o : Char) (r a b : List Char) :
    replaceChar o r (a ++ b) = replaceChar o r a ++ replaceChar o r b := by
  simp [replaceChar]

lemma escapeHtml_append (a b : List Char) :
    escapeHtml (a ++ b) = escapeHtml a ++ escapeHtml b := by
  simp [escapeHtml, replaceChar_append]

lemma escapeHtml_singleton (c : Char) : escapeHtml [c] = escChar c := by
  by_cases h1 : c = '&'
  · subst h1; rfl
  by_cases h2 : c = '<'
  · subst h2; rfl
  by_cases h3 : c = '>'
  · subst h3; rfl
  simp [escapeHtml, replaceChar, escChar, h1, h2, h3]

lemma escapeHtml_cons (c : Char) (t : List Char) :
    escapeHtml (c :: t) = escChar c ++ escapeHtml t := by
  have h : (c :: t) = [c] ++ t := rfl
  rw [h, escapeHtml_append, escapeHtml_singleton]

lemma escapeHtml_eq_flatMap (s : List Char) : escapeHtml s = s.flatMap escChar := by
  induction s with
  | nil => rfl
  | cons c t ih => rw [escapeHtml_cons, List.flatMap_cons, ih]

lemma escChar_no_lt (c : Char) : '<' ∉ escChar c := by
  intro hmem
  unfold escChar at hmem
  split_ifs at hmem with h1 h2 h3
  · exact absurd hmem (by decide)
  · exact absurd hmem (by decide)
  · exact absurd hmem (by decide)
  · simp at hmem; exact h2 hmem.symm

lemma escChar_no_gt (c : Char) : '>' ∉ escChar c := by
  intro hmem
  unfold escChar at hmem
  split_ifs at hmem with h1 h2 h3
  · exact absurd hmem (by decide)
  · exact absurd hmem (by decide)
  · exact absurd hmem (by decide)
  · simp at hmem; exact h3 hmem.symm

lemma escape_no_lt (s : List Char) : '<' ∉ escapeHtml s := by
  induction s with
  | nil => simp [escapeHtml, replaceChar]
  | cons c t ih =>
    rw [escapeHtml_cons]
    intro hm
    rcases List.mem_append.mp hm with h | h
    · exact escChar_no_lt c h
    · exact ih h

lemma escape_no_gt (s : List Char) : '>' ∉ escapeHtml s := by
  induction s with
  | nil => simp [escapeHtml, replaceChar]
  | cons c t ih =>
    rw [escapeHtml_cons]
    intro hm
    rcases List.mem_append.mp hm with h | h
    · exact escChar_no_gt c h
    · exact ih h

lemma ampOk_escape (s : List Char) : ampOk (escapeHtml s) = true := by
  induction s with
  | nil => rfl
  | cons c t ih =>
    rw [escapeHtml_cons]
    by_cases h1 : c = '&'
    · subst h1
      show ampOk ('&' :: 'a' :: 'm' :: 'p' :: ';' :: escapeHtml t) = true
      have hp : "amp;".data.isPrefixOf ('a' :: 'm' :: 'p' :: ';' :: escapeHtml t) = true := by
        show List.isPrefixOf ['a','m','p',';'] ('a' :: 'm' :: 'p' :: ';' :: escapeHtml t) = true
        simp [List.isPrefixOf]
      simp [ampOk, hp, ih]
    by_cases h2 : c = '<'
    · subst h2
      show ampOk ('&' :: 'l' :: 't' :: ';' :: escapeHtml t) = true
      have hp : "lt;".data.isPrefixOf ('l' :: 't' :: ';' :: escapeHtml t) = true := by
        show List.isPrefixOf ['l','t',';'] ('l' :: 't' :: ';' :: escapeHtml t) = true
        simp [List.isPrefixOf]
      simp [ampOk, hp, ih]
    by_cases h3 : c = '>'
    · subst h3
      show ampOk ('&' :: 'g' :: 't' :: ';' :: escapeHtml t) = true
      have hp : "gt;".data.isPrefixOf ('g' :: 't' :: ';' :: escapeHtml t) = true := by
        show List.isPrefixOf ['g','t',';'] ('g' :: 't' :: ';' :: escapeHtml t) = true
        simp [List.isPrefixOf]
      simp [ampOk, hp, ih]
    · have h : escChar c = [c] := by simp [escChar, h1, h2, h3]
      rw [h]
      simp [ampOk, h1, ih]

lemma htmlDecode_escape (s : List Char) : htmlDecode (escapeHtml s) = s := by
  induction s with
  | nil => simp [escapeHtml, replaceChar, htmlDecode]
  | cons c t ih =>
    rw [escapeHtml_cons]
    by_cases h1 : c = '&'
    · subst h1
      show htmlDecode ('&' :: 'a' :: 'm' :: 'p' :: ';' :: escapeHtml t) = '&' :: t
      have hp : "amp;".data.isPrefixOf ('a' :: 'm' :: 'p' :: ';' :: escapeHtml t) = true := by
        show List.isPrefixOf ['a','m','p',';'] ('a' :: 'm' :: 'p' :: ';' :: escapeHtml t) = true
        simp [List.isPrefixOf]
      have hd : ('a' :: 'm' :: 'p' :: ';' :: escapeHtml t).drop 4 = escapeHtml t := rfl
      simp [htmlDecode, hp, hd, ih]
    by_cases h2 : c = '<'
    · subst h2
      show htmlDecode ('&' :: 'l' :: 't' :: ';' :: escapeHtml t) = '<' :: t
      have hpa : "amp;".data.isPrefixOf ('l' :: 't' :: ';' :: escapeHtml t) = false := by
        show List.isPrefixOf ['a','m','p',';'] ('l' :: 't' :: ';' :: escapeHtml t) = false
        simp [List.isPrefixOf]
      have hp : "lt;".data.isPrefixOf ('l' :: 't' :: ';' :: escapeHtml t) = true := by
        show List.isPrefixOf ['l','t',';'] ('l' :: 't' :: ';' :: escapeHtml t) = true
        simp [List.isPrefixOf]
      have hd : ('l' :: 't' :: ';' :: escapeHtml t).drop 3 = escapeHtml t := rfl
      simp [htmlDecode, hpa, hp, hd, ih]
    by_cases h3 : c = '>'
    · subst h3
      show htmlDecode ('&' :: 'g' :: 't' :: ';' :: escapeHtml t) = '>' :: t
      have hpa : "amp;".data.isPrefixOf ('g' :: 't' :: ';' :: escapeHtml t) = false := by
        show List.isPrefixOf ['a','m','p',';'] ('g' :: 't' :: ';' :: escapeHtml t) = false
        simp [List.isPrefixOf]
      have hpl : "lt;".data.isPrefixOf ('g' :: 't' :: ';' :: escapeHtml t) = false := by
        show List.isPrefixOf ['l','t',';'] ('g' :: 't' :: ';' :: escapeHtml t) = false
        simp [List.isPrefixOf]
      have hp : "gt;".data.isPrefixOf ('g' :: 't' :: ';' :: escapeHtml t) = true := by
        show List.isPrefixOf ['g','t',';'] ('g' :: 't' :: ';' :: escapeHtml t) = true
        simp [List.isPrefixOf]
      have hd : ('g' :: 't' :: ';' :: escapeHtml t).drop 3 = escapeHtml t := rfl
      simp [htmlDecode, hpa, hpl, hp, hd, ih]
    · have h : escChar c = [c] := by simp [escChar, h1, h2, h3]
      rw [h]
      simp [htmlDecode, h1, ih]

lemma files_html_ne_nil (files : List (List Char × List Char)) (h : files ≠ []) :
    files_html files = (files.map fileSection).flatten := by
  cases files with
  | nil => exact absurd rfl h
  | cons a l => rfl

lemma fileSection_into_files_html (f : List Char × List Char)
    (files : List (List Char × List Char)) (hf : f ∈ files) :
    fileSection f <:+: files_html files := by
  rw [files_html_ne_nil files (by rintro rfl; simp at hf)]
  obtain ⟨s, t, rfl⟩ := List.append_of_mem hf
  refine ⟨(s.map fileSection).flatten, (t.map fileSection).flatten, ?_⟩
  simp [List.map_append, List.flatten_append]

lemma escape_infix_fileSection (f : List Char × List Char) :
    escapeHtml f.2 <:+: fileSection f := by
  refine ⟨"\n    <div class=\"file-section\">\n        ".data
    ++ ("<h3>".data ++ f.1 ++ "</h3>".data)
    ++ "\n        <pre><code class=\"language-".data
    ++ get_language f.1
    ++ "\">".data, "</code></pre>\n    </div>\n".data, ?_⟩
  simp [fileSection, List.append_assoc]

lemma files_html_infix_page (day_num : Int) (description : List Char)
    (files : List (List Char × List Char)) :
    files_html files <:+: generate_day_page day_num description files := by
  refine ⟨dayTpl1 ++ (toString day_num).data ++ dayTpl2 ++ (toString day_num).data
    ++ dayTpl3 ++ navLinks day_num ++ dayTpl4 ++ descContent description
    ++ dayTpl5, dayTpl6, ?_⟩
  simp [generate_day_page, List.append_assoc]

lemma descContent_infix_page (day_num : Int) (description : List Char)
    (files : List (List Char × List Char)) :
    descContent description <:+: generate_day_page day_num description files := by
  refine ⟨dayTpl1 ++ (toString day_num).data ++ dayTpl2 ++ (toString day_num).data
    ++ dayTpl3 ++ navLinks day_num ++ dayTpl4,
    dayTpl5 ++ files_html files ++ dayTpl6, ?_⟩
  simp [generate_day_page, List.append_assoc]

/-- C2: escaping a code-file content string leaves no literal `<` or `>`,
every remaining `&` starts one of the three entities, and decoding the
three entities recovers the original content exactly. -/
theorem claim_c2_escape_roundtrip (content : List Char) :
    '<' ∉ escapeHtml content ∧ '>' ∉ escapeHtml content ∧
    ampOk (escapeHtml content) = true ∧
    htmlDecode (escapeHtml content) = content :=
  ⟨escape_no_lt content, escape_no_gt content, ampOk_escape content,
    htmlDecode_escape content⟩

/-- C3: entity escaping is applied to code-file content only, in the
order ampersand, then less-than, then greater-than (`escapeHtml` is by
definition that composition, and substituting in this order equals one
simultaneous per-character pass, so nothing is double-escaped), while
the description text is embedded in the page verbatim, unescaped. -/
theorem claim_c3_escape_order_desc_verbatim (day_num : Int) (description : List Char)
    (files : List (List Char × List Char)) :
    (description ≠ [] →
      description <:+: generate_day_page day_num description files) ∧
    (∀ f, f ∈ files →
      escapeHtml f.2 <:+: generate_day_page day_num description files) ∧
    escapeHtml = (fun content => replaceChar '>' "&gt;".data
      (replaceChar '<' "&lt;".data (replaceChar '&' "&amp;".data content))) ∧
    (∀ s, escapeHtml s = s.flatMap escChar) := by
  refine ⟨?_, ?_, rfl, escapeHtml_eq_flatMap⟩
  · intro hd
    have h : descContent description = description := by simp [descContent, hd]
    have := descContent_infix_page day_num description files
    rwa [h] at this
  · intro f hf
    exact ((escape_infix_fileSection f).trans (fileSection_into_files_html f files hf)).trans
      (files_html_infix_page day_num description files)

/-- Closed instance of C3 discharging its hypotheses at concrete input. -/
theorem claim_c3_witness :
    "x<i>".data <:+: generate_day_page 5 "x<i>".data [("a.cu".data, "1<2".data)] ∧
    escapeHtml "1<2".data <:+:
      generate_day_page 5 "x<i>".data [("a.cu".data, "1<2".data)] :=
  ⟨(claim_c3_escape_order_desc_verbatim 5 "x<i>".data
      [("a.cu".data, "1<2".data)]).1 (by decide),
   (claim_c3_escape_order_desc_verbatim 5 "x<i>".data
      [("a.cu".data, "1<2".data)]).2.1 ("a.cu".data, "1<2".data) (by simp)⟩

lemma navLinks_infix_page (day_num : Int) (description : List Char)
    (files : List (List Char × List Char)) :
    navLinks day_num <:+: generate_day_page day_num description files := by
  refine ⟨dayTpl1 ++ (toString day_num).data ++ dayTpl2 ++ (toString day_num).data
    ++ dayTpl3, dayTpl4 ++ descContent description ++ dayTpl5
    ++ files_html files ++ dayTpl6, ?_⟩
  simp [generate_day_page, List.append_assoc]

/-- C7: with an empty description the day page carries the fixed
no-description paragraph, and with an empty file list it carries the fixed
no-files paragraph, instead of empty blocks. -/
theorem claim_c7_placeholders (day_num : Int) (description : List Char)
    (files : List (List Char × List Char)) :
    (description = [] →
      "<p>No description available for this day.</p>".data
        <:+: generate_day_page day_num description files) ∧
    (files = [] →
      "<p class=\"no-files\">No code files found for this day.</p>".data
        <:+: generate_day_page day_num description files) := by
  constructor
  · intro hd
    have h : descContent description
        = "<p>No description available for this day.</p>".data := by
      simp [descContent, hd]
    have := descContent_infix_page day_num description files
    rwa [h] at this
  · intro hf
    subst hf
    have h : files_html [] =
        "<p class=\"no-files\">No code files found for this day.</p>".data := rfl
    have := files_html_infix_page day_num description []
    rwa [h] at this

/-- Closed instance of C7 at a concrete day with no description and no
files. -/
theorem claim_c7_witness :
    "<p>No description available for this day.</p>".data
      <:+: generate_day_page 3 [] [] ∧
    "<p class=\"no-files\">No code files found for this day.</p>".data
      <:+: generate_day_page 3 [] [] :=
  ⟨(claim_c7_placeholders 3 [] []).1 rfl, (claim_c7_placeholders 3 [] []).2 rfl⟩

/-- C8: the day page embeds the two conditional navigation anchors; the
previous-day anchor (to day `n-1`) is present exactly when `n > 1` and
the next-day anchor (to day `n+1`) exactly when `n < 100`; at the ends
the corresponding conditional renders as the empty string. -/
theorem claim_c8_nav_links (day_num : Int) (description : List Char)
    (files : List (List Char × List Char)) :
    (∃ A B, generate_day_page day_num description files
      = A ++ (prevLink day_num ++ dayTplMid ++ nextLink day_num) ++ B) ∧
    (1 < day_num →
      ("<a href=\"".data ++ ("day-".data ++ (toString (day_num - 1)).data ++ ".html".data)
        ++ "\">← Day ".data ++ (toString (day_num - 1)).data ++ "</a>".data)
        <:+: generate_day_page day_num description files) ∧
    (day_num < 100 →
      ("<a href=\"".data ++ ("day-".data ++ (toString (day_num + 1)).data ++ ".html".data)
        ++ "\">Day ".data ++ (toString (day_num + 1)).data ++ " →</a>".data)
        <:+: generate_day_page day_num description files) ∧
    (¬ 1 < day_num → prevLink day_num = []) ∧
    (¬ day_num < 100 → nextLink day_num = []) := by
  refine ⟨?_, ?_, ?_, ?_, ?_⟩
  · obtain ⟨A, B, h⟩ := navLinks_infix_page day_num description files
    exact ⟨A, B, by rw [← h]; rfl⟩
  · intro h
    have hp : prevLink day_num
        = "<a href=\"".data ++ ("day-".data ++ (toString (day_num - 1)).data ++ ".html".data)
          ++ "\">← Day ".data ++ (toString (day_num - 1)).data ++ "</a>".data := by
      simp [prevLink, h]
    have h1 : prevLink day_num <:+: navLinks day_num :=
      ⟨[], dayTplMid ++ nextLink day_num, by simp [navLinks, List.append_assoc]⟩
    have := h1.trans (navLinks_infix_page day_num description files)
    rwa [hp] at this
  · intro h
    have hp : nextLink day_num
        = "<a href=\"".data ++ ("day-".data ++ (toString (day_num + 1)).data ++ ".html".data)
          ++ "\">Day ".data ++ (toString (day_num + 1)).data ++ " →</a>".data := by
      simp [nextLink, h]
    have h1 : nextLink day_num <:+: navLinks day_num :=
      ⟨prevLink day_num ++ dayTplMid, [], by simp [navLinks, List.append_assoc]⟩
    have := h1.trans (navLinks_infix_page day_num description files)
    rwa [hp] at this
  · intro h; simp [prevLink, h]
  · intro h; simp [nextLink, h]

/-- Closed instance of C8: day 2 has both anchors, day 1 renders no
previous anchor, day 100 renders no next anchor. -/
theorem claim_c8_witness :
    ("<a href=\"".data ++ ("day-".data ++ (toString (1 : Int)).data ++ ".html".data)
      ++ "\">← Day ".data ++ (toString (1 : Int)).data ++ "</a>".data)
      <:+: generate_day_page 2 [] [] ∧
    ("<a href=\"".data ++ ("day-".data ++ (toString (3 : Int)).data ++ ".html".data)
      ++ "\">Day ".data ++ (toString (3 : Int)).data ++ " →</a>".data)
      <:+: generate_day_page 2 [] [] ∧
    prevLink 1 = [] ∧ nextLink 100 = [] :=
  ⟨(claim_c8_nav_links 2 [] []).2.1 (by decide),
   (claim_c8_nav_links 2 [] []).2.2.1 (by decide),
   (claim_c8_nav_links 1 [] []).2.2.2.1 (by decide),
   (claim_c8_nav_links 100 [] []).2.2.2.2 (by decide)⟩

/-- C10: the relative path of a rendered file is inserted verbatim into
the `<h3>` heading of its section, with no entity substitution applied
to it (only the file content is escaped). -/
theorem claim_c10_filename_verbatim (day_num : Int) (description : List Char)
    (files : List (List Char × List Char)) (fname content : List Char)
    (h : (fname, content) ∈ files) :
    ("<h3>".data ++ fname ++ "</h3>".data)
      <:+: generate_day_page day_num description files := by
  have h1 : ("<h3>".data ++ fname ++ "</h3>".data) <:+: fileSection (fname, content) := by
    refine ⟨"\n    <div class=\"file-section\">\n        ".data,
      "\n        <pre><code class=\"language-".data ++ get_language fname
      ++ "\">".data ++ escapeHtml content
      ++ "</code></pre>\n    </div>\n".data, ?_⟩
    simp [fileSection, List.append_assoc]
  exact (h1.trans (fileSection_into_files_html (fname, content) files h)).trans
    (files_html_infix_page day_num description files)

/-- Closed instance of C10: a path containing `<`, `>` and `&` appears
literally in the heading. -/
theorem claim_c10_witness :
    ("<h3>".data ++ "a<&>.cu".data ++ "</h3>".data)
      <:+: generate_day_page 4 [] [("a<&>.cu".data, "z".data)] :=
  claim_c10_filename_verbatim 4 [] [("a<&>.cu".data, "z".data)]
    "a<&>.cu".data "z".data (by simp)

/-- C9: the language tagger is total with no failure mode — its result is
always one of the six tags — and it maps exactly the seven recognized
extensions per the fixed table (`.cu`/`.cuh` to cuda, `.cpp` to cpp,
`.c`/`.h` to c, `.py` to python, `.md` to markdown, case-sensitively),
every other filename getting the generic fallback `clike`. -/
theorem claim_c9_language_table (filename : List Char) :
    (get_language filename = "cuda".data ↔
      (pathSuffix filename = ".cu".data ∨ pathSuffix filename = ".cuh".data)) ∧
    (get_language filename = "cpp".data ↔ pathSuffix filename = ".cpp".data) ∧
    (get_language filename = "c".data ↔
      (pathSuffix filename = ".c".data ∨ pathSuffix filename = ".h".data)) ∧
    (get_language filename = "python".data ↔ pathSuffix filename = ".py".data) ∧
    (get_language filename = "markdown".data ↔ pathSuffix filename = ".md".data) ∧
    (get_language filename = "clike".data ↔
      pathSuffix filename ∉ [".cu".data, ".cpp".data, ".c".data, ".h".data,
        ".cuh".data, ".py".data, ".md".data]) ∧
    get_language filename ∈ ["cuda".data, "cpp".data, "c".data, "python".data,
      "markdown".data, "clike".data] := by
  simp only [get_language]
  split_ifs with h1 h2 h3 h4 h5 h6 h7 <;> simp_all

lemma dayCard_marker_number (d : Nat → Option (List Char)) (n : Nat) :
    ("Day ".data ++ (toString n).data ++ "</div>".data) <:+: dayCard d n :=
  ⟨"\n        <div class=\"day-card\">\n            <div class=\"day-number\">".data,
    "\n            <div class=\"day-preview\">".data ++ preview ((d n).getD [])
    ++ "</div>\n            <a href=\"".data
    ++ ("day-".data ++ (toString n).data ++ ".html".data)
    ++ "\" class=\"day-link\">View Details →</a>\n        </div>".data,
    by simp [dayCard, List.append_assoc]⟩

lemma dayCard_marker_link (d : Nat → Option (List Char)) (n : Nat) :
    ("day-".data ++ (toString n).data ++ ".html".data) <:+: dayCard d n :=
  ⟨"\n        <div class=\"day-card\">\n            <div class=\"day-number\">".data
    ++ ("Day ".data ++ (toString n).data ++ "</div>".data)
    ++ "\n            <div class=\"day-preview\">".data ++ preview ((d n).getD [])
    ++ "</div>\n            <a href=\"".data,
    "\" class=\"day-link\">View Details →</a>\n        </div>".data,
    by simp [dayCard, List.append_assoc]⟩

/-- C5: for every description mapping the index page is the fixed frame
around exactly 100 cards, the `i`-th card being the card of day `i+1`
(so the cards run 1..100 in ascending order, one per day, with a card
for every day whether or not the mapping has an entry for it). -/
theorem claim_c5_index_hundred_cards (day_descriptions : Nat → Option (List Char)) :
    ∃ f : Fin 100 → List Char,
      generate_index_page day_descriptions
        = idxTpl1 ++ (List.ofFn f).flatten ++ idxTpl2 ∧
      ∀ i : Fin 100,
        ("Day ".data ++ (toString (i.val + 1)).data ++ "</div>".data) <:+: f i ∧
        ("day-".data ++ (toString (i.val + 1)).data ++ ".html".data) <:+: f i := by
  refine ⟨fun i => dayCard day_descriptions (i.val + 1), ?_, ?_⟩
  · have h1 : List.range' 1 100 = List.ofFn (fun i : Fin 100 => i.val + 1) := by decide
    show idxTpl1 ++ ((List.range' 1 100).map (dayCard day_descriptions)).flatten ++ idxTpl2
      = idxTpl1 ++ (List.ofFn fun i : Fin 100 =>
          dayCard day_descriptions (i.val + 1)).flatten ++ idxTpl2
    rw [h1, List.map_ofFn]
    rfl
  · intro i
    exact ⟨dayCard_marker_number day_descriptions (i.val + 1),
      dayCard_marker_link day_descriptions (i.val + 1)⟩

lemma qualB_true_iff (l : List Char) :
    qualB l = true ↔ (l ≠ [] ∧ l.head? ≠ some '#') := by
  simp [qualB]

lemma firstQual_found : ∀ (lines : List (List Char)) (i : Nat) (l : List Char),
    (lines.map pyStrip).get? i = some l → qualB l = true →
    ((lines.map pyStrip).take i).all (fun x => !(qualB x)) = true →
    firstQual lines = l.take 150 ++ (if 150 < l.length then "...".data else []) := by
  intro lines
  induction lines with
  | nil => intro i l hg; simp at hg
  | cons a ls ih =>
    intro i l hg hq hall
    cases i with
    | zero =>
      simp at hg
      subst hg
      have hcond := (qualB_true_iff (pyStrip a)).mp hq
      simp [firstQual, hcond]
    | succ n =>
      simp at hg
      simp [List.all_cons] at hall
      have hskip : ¬ (pyStrip a ≠ [] ∧ (pyStrip a).head? ≠ some '#') := by
        intro hc
        have := (qualB_true_iff (pyStrip a)).mpr hc
        simp [this] at hall
      have := ih n l (by simpa using hg) hq (by simp [List.all_eq_true] at hall ⊢; exact hall.2)
      rwa [firstQual, if_neg hskip]

lemma firstQual_none : ∀ (lines : List (List Char)),
    (lines.map pyStrip).all (fun x => !(qualB x)) = true →
    firstQual lines = [] := by
  intro lines
  induction lines with
  | nil => intro _; rfl
  | cons a ls ih =>
    intro hall
    simp [List.all_cons] at hall
    have hskip : ¬ (pyStrip a ≠ [] ∧ (pyStrip a).head? ≠ some '#') := by
      intro hc
      have := (qualB_true_iff (pyStrip a)).mpr hc
      simp [this] at hall
    rw [firstQual, if_neg hskip]
    exact ih (by simp [List.all_eq_true] at hall ⊢; exact hall.2)

/-- C6: the preview of a day card is the first stripped line of the
description that is non-empty and does not start with `#`, truncated to
150 characters with an ellipsis appended exactly when it is longer; when
no such line exists the preview is the fixed placeholder sentence. -/
theorem claim_c6_preview_rule :
    (∀ (desc : List Char) (i : Nat) (l : List Char),
      ((splitOnChar '\n' desc).map pyStrip).get? i = some l →
      qualB l = true →
      (((splitOnChar '\n' desc).map pyStrip).take i).all (fun x => !(qualB x)) = true →
      preview desc = l.take 150 ++ (if 150 < l.length then "...".data else [])) ∧
    (∀ desc : List Char,
      ((splitOnChar '\n' desc).map pyStrip).all (fun x => !(qualB x)) = true →
      preview desc = "Click to view details".data) := by
  constructor
  · intro desc i l hg hq hall
    by_cases hdesc : desc = []
    · subst hdesc
      -- the only line of the empty document strips to the empty line,
      -- which is not a qualifying line
      cases i with
      | zero =>
        have hl : l = pyStrip [] := by
          have := hg
          simp [splitOnChar] at this
          exact this.symm
        subst hl
        simp [pyStrip, qualB] at hq
      | succ n => simp [splitOnChar] at hg
    · have hfq := firstQual_found (splitOnChar '\n' desc) i l hg hq hall
      have hlne : l ≠ [] := ((qualB_true_iff l).mp hq).1
      have hne : l.take 150 ++ (if 150 < l.length then "...".data else []) ≠ [] := by
        cases l with
        | nil => exact absurd rfl hlne
        | cons c t => simp [List.take]
      simp [preview, hdesc, hfq, hne]
  · intro desc hall
    by_cases hdesc : desc = []
    · subst hdesc; rfl
    · have hfq := firstQual_none (splitOnChar '\n' desc) hall
      simp [preview, hdesc, hfq]

/-- Closed instance of C6: a header line is skipped and the first plain
line becomes the preview; a description of only headers and blanks falls
back to the placeholder. -/
theorem claim_c6_witness :
    preview "# T\nhello".data = "hello".data ∧
    preview "# none\n## two".data = "Click to view details".data := by
  constructor
  · have h := claim_c6_preview_rule.1 "# T\nhello".data 1 "hello".data
      (by decide) (by decide) (by decide)
    rw [h]; decide
  · exact claim_c6_preview_rule.2 "# none\n## two".data (by decide)

lemma scanDoc_cons_some (c' : Char) (t' : List Char) (nr : Nat × List Char)
    (h : matchHeader (c' :: t') = some nr) :
    scanDoc (c' :: t') true
      = (nr.1, pyStrip (takeDesc nr.2).1) :: scanDoc (takeDesc nr.2).2 false := by
  rw [scanDoc]
  simp only [if_pos]
  split
  · rename_i nr' heq
    rw [h] at heq
    injection heq with heq
    subst heq
    rfl
  · rename_i heq
    rw [h] at heq
    exact absurd heq (by simp)

lemma scanDoc_cons_none (c' : Char) (t' : List Char)
    (h : matchHeader (c' :: t') = none) :
    scanDoc (c' :: t') true = scanDoc t' (c' == '\n') := by
  rw [scanDoc]
  simp only [if_pos]
  split
  · rename_i nr' heq
    rw [h] at heq
    exact absurd heq (by simp)
  · rfl

lemma scanDoc_cons_false (c' : Char) (t' : List Char) :
    scanDoc (c' :: t') false = scanDoc t' (c' == '\n') := by
  rw [scanDoc]
  simp

lemma matchHeader_nonhash (c' : Char) (u : List Char) (h : (c' == '#') = false) :
    matchHeader (c' :: u) = none := by
  simp [matchHeader, List.takeWhile_cons, h]

lemma scanDoc_newline (u : List Char) (b : Bool) :
    scanDoc ('\n' :: u) b = scanDoc u true := by
  cases b
  · rw [scanDoc_cons_false]; norm_num
  · rw [scanDoc_cons_none '\n' u (matchHeader_nonhash '\n' u (by decide))]
    norm_num

lemma matchHeader_day7 (c : Char) (t : List Char) (hc : isPySpace c = false) :
    matchHeader ("## Day 7: ".data ++ c :: t) = some (7, c :: t) := by
  have e1 : ("## Day 7: ".data ++ c :: t)
      = '#':: '#':: ' ':: 'D':: 'a':: 'y':: ' ':: '7':: ':':: ' ':: c :: t := rfl
  have s1 : isPySpace ' ' = true := by decide
  have s2 : isPySpace 'D' = false := by decide
  have s3 : isPySpace '7' = false := by decide
  have s4 : isPySpace ':' = false := by decide
  have d1 : Char.isDigit '7' = true := by decide
  have d2 : Char.isDigit ':' = false := by decide
  have b1 : ('#' == '#') = true := by decide
  have b2 : (' ' == '#') = false := by decide
  have hday : "Day".data = ['D', 'a', 'y'] := rfl
  have hd7 : digitsToNat ['7'] = 7 := by decide
  rw [e1]
  simp [matchHeader, matchSep, List.takeWhile_cons, List.dropWhile_cons,
    s1, s2, s3, s4, d1, d2, b1, b2, hc, hday, List.isPrefixOf, hd7]

lemma isStop_day8 (rest : List Char) :
    isStop ("\n## Day 8".data ++ rest) = true := by
  have e1 : ("\n## Day 8".data ++ rest)
      = '\n':: '#':: '#':: ' ':: 'D':: 'a':: 'y':: ' ':: '8':: rest := rfl
  have s1 : isPySpace ' ' = true := by decide
  have s2 : isPySpace 'D' = false := by decide
  have s5 : isPySpace '8' = false := by decide
  have d1 : Char.isDigit '8' = true := by decide
  have b1 : ('#' == '#') = true := by decide
  have b2 : (' ' == '#') = false := by decide
  have hday : "Day".data = ['D', 'a', 'y'] := rfl
  rw [e1]
  simp [isStop, isBoundaryHeader, List.takeWhile_cons, List.dropWhile_cons,
    s1, s2, s5, d1, b1, b2, hday, List.isPrefixOf]

lemma isStop_day7sep (X : List Char) :
    isStop ("\n## Day 7: ".data ++ X) = true := by
  have e1 : ("\n## Day 7: ".data ++ X)
      = '\n':: '#':: '#':: ' ':: 'D':: 'a':: 'y':: ' ':: '7':: ':':: ' ':: X := rfl
  have s1 : isPySpace ' ' = true := by decide
  have s2 : isPySpace 'D' = false := by decide
  have s3 : isPySpace '7' = false := by decide
  have d1 : Char.isDigit '7' = true := by decide
  have d2 : Char.isDigit ':' = false := by decide
  have b1 : ('#' == '#') = true := by decide
  have b2 : (' ' == '#') = false := by decide
  have hday : "Day".data = ['D', 'a', 'y'] := rfl
  rw [e1]
  simp [isStop, isBoundaryHeader, List.takeWhile_cons, List.dropWhile_cons,
    s1, s2, s3, d1, d2, b1, b2, hday, List.isPrefixOf]

lemma takeDesc_concat (t tail : List Char) (hstop : isStop tail = true)
    (h : ∀ i, i < t.length → isStop (t.drop i ++ tail) = false) :
    takeDesc (t ++ tail) = (t, tail) := by
  induction t with
  | nil =>
    cases tail with
    | nil => rfl
    | cons c u => simp [takeDesc, hstop]
  | cons c t' ih =>
    have h0 : isStop (c :: (t' ++ tail)) = false := by
      have := h 0 (by simp)
      simpa using this
    rw [List.cons_append, takeDesc, if_neg (by simp [h0])]
    have := ih (fun i hi => by
      have := h (i + 1) (by simpa using Nat.succ_lt_succ hi)
      simpa using this)
    simp [this]

lemma dictGet_skip (l : List (Nat × List Char)) (k : Nat)
    (acc : Option (List Char))
    (hall : l.all (fun p => !(p.1 == k)) = true) :
    l.foldl (fun acc p => if p.1 = k then some p.2 else acc) acc = acc := by
  induction l generalizing acc with
  | nil => rfl
  | cons a l' ih =>
    simp [List.all_cons] at hall
    rw [List.foldl_cons, if_neg hall.1]
    exact ih acc (by simp [List.all_eq_true]; exact hall.2)

lemma scanDoc_day7_section (c : Char) (t tail : List Char)
    (hc : isPySpace c = false)
    (hstop : isStop tail = true)
    (hin : ∀ i, i < (c :: t).length → isStop ((c :: t).drop i ++ tail) = false) :
    scanDoc ("## Day 7: ".data ++ (c :: t) ++ tail) true
      = (7, pyStrip (c :: t)) :: scanDoc tail false := by
  have e1 : ("## Day 7: ".data ++ (c :: t) ++ tail)
      = "## Day 7: ".data ++ c :: (t ++ tail) := by simp
  have hm := matchHeader_day7 c (t ++ tail) hc
  have htd : takeDesc ((c :: t) ++ tail) = (c :: t, tail) :=
    takeDesc_concat (c :: t) tail hstop hin
  have e2 : ("## Day 7: ".data ++ c :: (t ++ tail))
      = '#' :: ('#':: ' ':: 'D':: 'a':: 'y':: ' ':: '7':: ':':: ' ':: c :: (t ++ tail)) := rfl
  rw [e1, e2]
  rw [scanDoc_cons_some '#' ('#':: ' ':: 'D':: 'a':: 'y':: ' ':: '7':: ':':: ' ':: c :: (t ++ tail))
    (7, c :: (t ++ tail)) (by rw [← e2]; exact hm)]
  have e3 : (c :: (t ++ tail)) = (c :: t) ++ tail := by simp
  rw [e3, htd]

/-- C1: a document that begins a line with a well-formed day-7 header
whose title text starts with a non-whitespace character, whose section
body contains no day-header boundary, and that is eventually followed by
a `## Day 8` boundary, parses to a mapping sending 7 to the text between
the two headers, with the boundary excluded and surrounding whitespace
trimmed (provided no later day-7 section overrides it). -/
theorem claim_c1_extract_section (c : Char) (t rest : List Char)
    (hc : isPySpace c = false)
    (hin : ∀ i, i < (c :: t).length →
      isStop ((c :: t).drop i ++ ("\n## Day 8".data ++ rest)) = false)
    (hall : (scanDoc ("\n## Day 8".data ++ rest) false).all
      (fun p => !(p.1 == 7)) = true) :
    parse_readme ("## Day 7: ".data ++ (c :: t) ++ "\n## Day 8".data ++ rest) 7
      = some (pyStrip (c :: t)) := by
  have hscan := scanDoc_day7_section c t ("\n## Day 8".data ++ rest) hc
    (isStop_day8 rest) hin
  unfold parse_readme
  rw [List.append_assoc ("## Day 7: ".data ++ (c :: t)) "\n## Day 8".data rest, hscan]
  unfold dictGet
  rw [List.foldl_cons, if_pos rfl]
  exact dictGet_skip _ 7 _ hall

lemma scanDoc_nil (b : Bool) : scanDoc [] b = [] := by rw [scanDoc]

lemma scanDoc_tail_day8 : scanDoc ("\n## Day 8".data ++ []) false = [] := by
  rw [List.append_nil]
  rw [show "\n## Day 8".data
    = '\n' :: ('#':: '#':: ' ':: 'D':: 'a':: 'y':: ' ':: '8'::[]) from rfl]
  rw [scanDoc_newline]
  rw [scanDoc_cons_none _ _ (by decide)]
  rw [show ('#' == '\n') = false from rfl]
  rw [scanDoc_cons_false, show ('#' == '\n') = false from rfl]
  rw [scanDoc_cons_false, show (' ' == '\n') = false from rfl]
  rw [scanDoc_cons_false, show ('D' == '\n') = false from rfl]
  rw [scanDoc_cons_false, show ('a' == '\n') = false from rfl]
  rw [scanDoc_cons_false, show ('y' == '\n') = false from rfl]
  rw [scanDoc_cons_false, show (' ' == '\n') = false from rfl]
  rw [scanDoc_cons_false, show ('8' == '\n') = false from rfl]
  exact scanDoc_nil false

/-- Closed instance of C1: the spec's example shape, evaluated. -/
theorem claim_c1_witness :
    parse_readme "## Day 7: Intro text\n## Day 8".data 7
      = some "Intro text".data := by
  have hall : (scanDoc ("\n## Day 8".data ++ ([] : List Char)) false).all
      (fun p => !(p.1 == 7)) = true := by rw [scanDoc_tail_day8]; rfl
  have h := claim_c1_extract_section 'I' "ntro text".data []
    (by decide) (by decide) hall
  rw [show "## Day 7: Intro text\n## Day 8".data
    = "## Day 7: ".data ++ ('I' :: "ntro text".data) ++ "\n## Day 8".data ++ []
    from by decide]
  rw [h]
  decide

/-- C4: when the day-7 header appears twice, the later occurrence's
trimmed description is the one kept in the mapping — the earlier text
does not survive. -/
theorem claim_c4_last_wins (c1 c2 : Char) (t1 t2 rest : List Char)
    (hc1 : isPySpace c1 = false) (hc2 : isPySpace c2 = false)
    (hin1 : ∀ i, i < (c1 :: t1).length →
      isStop ((c1 :: t1).drop i ++ ("\n## Day 7: ".data ++ ((c2 :: t2)
        ++ ("\n## Day 8".data ++ rest)))) = false)
    (hin2 : ∀ i, i < (c2 :: t2).length →
      isStop ((c2 :: t2).drop i ++ ("\n## Day 8".data ++ rest)) = false)
    (hall : (scanDoc ("\n## Day 8".data ++ rest) false).all
      (fun p => !(p.1 == 7)) = true) :
    parse_readme ("## Day 7: ".data ++ (c1 :: t1) ++ "\n## Day 7: ".data
      ++ (c2 :: t2) ++ "\n## Day 8".data ++ rest) 7
      = some (pyStrip (c2 :: t2)) := by
  have hstop1 : isStop ("\n## Day 7: ".data ++ ((c2 :: t2)
      ++ ("\n## Day 8".data ++ rest))) = true := isStop_day7sep _
  have hscan1 := scanDoc_day7_section c1 t1
    ("\n## Day 7: ".data ++ ((c2 :: t2) ++ ("\n## Day 8".data ++ rest)))
    hc1 hstop1 hin1
  have hscan2 := scanDoc_day7_section c2 t2 ("\n## Day 8".data ++ rest) hc2
    (isStop_day8 rest) hin2
  have hnl : scanDoc ("\n## Day 7: ".data ++ ((c2 :: t2)
      ++ ("\n## Day 8".data ++ rest))) false
      = scanDoc ("## Day 7: ".data ++ (c2 :: t2) ++ ("\n## Day 8".data ++ rest)) true := by
    rw [show ("\n## Day 7: ".data ++ ((c2 :: t2) ++ ("\n## Day 8".data ++ rest)))
      = '\n' :: ("## Day 7: ".data ++ (c2 :: t2) ++ ("\n## Day 8".data ++ rest))
      from rfl]
    exact scanDoc_newline _ false
  unfold parse_readme
  rw [show ("## Day 7: ".data ++ (c1 :: t1) ++ "\n## Day 7: ".data
      ++ (c2 :: t2) ++ "\n## Day 8".data ++ rest)
    = ("## Day 7: ".data ++ (c1 :: t1) ++ ("\n## Day 7: ".data
      ++ ((c2 :: t2) ++ ("\n## Day 8".data ++ rest)))) from by simp]
  rw [hscan1, hnl, hscan2]
  unfold dictGet
  rw [List.foldl_cons, if_pos rfl, List.foldl_cons, if_pos rfl]
  exact dictGet_skip _ 7 _ hall

/-- Closed instance of C4: both sections are scanned, the second wins. -/
theorem claim_c4_witness :
    parse_readme "## Day 7: first\n## Day 7: second\n## Day 8".data 7
      = some "second".data := by
  have hall : (scanDoc ("\n## Day 8".data ++ ([] : List Char)) false).all
      (fun p => !(p.1 == 7)) = true := by rw [scanDoc_tail_day8]; rfl
  have h := claim_c4_last_wins 'f' 's' "irst".data "econd".data []
    (by decide) (by decide) (by decide) (by decide) hall
  rw [show "## Day 7: first\n## Day 7: second\n## Day 8".data
    = "## Day 7: ".data ++ ('f' :: "irst".data) ++ "\n## Day 7: ".data
      ++ ('s' :: "econd".data) ++ "\n## Day 8".data ++ []
    from by decide]
  rw [h]
  decide
